import Mathlib

/-!
Shallow embedding of the `Nikhil-Roy-369/chatbot` backend
(`src/backend/main.py` and `src/backend/database.py`): a FastAPI
user-account service with registration, login issuing JWT bearer tokens,
profile read/update, and an email-based password-reset flow.

Conventions of the embedding:
* Times are absolute timestamps in seconds (`Int`); `datetime.utcnow()`
  becomes an explicit `now` parameter and `timedelta(minutes=m)` becomes
  `m * 60` seconds.
* The sqlite `users` table becomes a list of `User` records in rowid
  order together with the next AUTOINCREMENT id.
* Each HTTP endpooint becomes a total function; `raise HTTPException`
  becomes an `Except` error carrying the status code and detail string.
* Mutating endpoints return the response together with the resulting
  database state, so frame conditions are statable.
* The external libraries (passlib bcrypt hashing, jose JWT) are not part
  of the repository; they are modelled from the spec, see `get_password_hash`,
  `verify_password`, `jwt_encode`, `jwt_decode` below.
-/

namespace Chatbot

/-- Modelled from the spec: a password digest as produced by the Password
Hasher (`passlib` bcrypt, external to the repository).  Per spec section 4.2
the digest embeds its salt, `verify` is true iff the digest was produced from
the given plaintext with that salt, and a malformed digest is possible input
to `verify`.  The one-way property is idealized: the digest carries the
plaintext it was derived from, and only `verify` inspects it. -/
inductive Digest where
  | bcrypt (salt : Nat) (pw : String)
  | malformed (raw : String)
deriving DecidableEq, Repr

/-- `get_password_hash` (main.py line 65): `pwd_context.hash(pw)`.
Modelled from the spec: the randomized salt is passed explicitly. -/
def get_password_hash (pw : String) (salt : Nat) : Digest :=
  Digest.bcrypt salt pw

/-- `verify_password` (main.py line 68): `pwd_context.verify(plain, hashed)`.
Modelled from the spec: true iff the digest was produced from `plain` via the
salt embedded in the digest; false (not an exception) on a malformed digest. -/
def verify_password (plain : String) (hashed : Digest) : Bool :=
  match hashed with
  | Digest.bcrypt _ pw => plain = pw
  | Digest.malformed _ => false

/-- Configuration constant `SECRET_KEY` (main.py line 25, default value). -/
def SECRET_KEY : String := "supersecretkey123"

/-- Configuration constant `ACCESS_TOKEN_EXPIRE_MINUTES = 60` (main.py line 32). -/
def ACCESS_TOKEN_EXPIRE_MINUTES : Int := 60

/-- Configuration constant `RESET_TOKEN_EXPIRE_MINUTES = 15` (main.py line 33). -/
def RESET_TOKEN_EXPIRE_MINUTES : Int := 15

/-- A decoded JWT payload as used by this service: the claims dict
`{"sub": ..., "exp": ...}` built by `create_access_token`. -/
structure TokenPayload where
  sub : Option String
  exp : Int
deriving DecidableEq, Repr

/-- A token string as seen by the verifier: either not a well-formed signed
JWT at all, or a payload signed with some symmetric key. -/
inductive Token where
  | malformed (raw : String)
  | signed (payload : TokenPayload) (key : String)
deriving DecidableEq, Repr

/-- Modelled from the spec: `jwt.encode(claims, key, algorithm)` of the
external jose library — produces a token signed with `key` carrying the
claims. -/
def jwt_encode (payload : TokenPayload) (key : String) : Token :=
  Token.signed payload key

/-- Modelled from the spec: `jwt.decode(token, key, algorithms)` of the
external jose library — per spec section 4.3 it checks signature validity
and that `expiry > now`, and signals `JWTError` on a malformed token, a bad
signature, or an expiry not in the future. -/
def jwt_decode (t : Token) (key : String) (now : Int) : Except String TokenPayload :=
  match t with
  | Token.malformed _ => Except.error "JWTError"
  | Token.signed payload k =>
    if k ≠ key then Except.error "JWTError"
    else if payload.exp ≤ now then Except.error "ExpiredSignatureError"
    else Except.ok payload

/-- `create_access_token` (main.py lines 71-74): copies the claims, sets
`exp = utcnow() + timedelta(minutes=minutes)` and signs with `SECRET_KEY`.
All call sites pass `{"sub": email}`, so the claims dict is the subject. -/
def create_access_token (sub : String) (minutes : Int) (now : Int) : Token :=
  jwt_encode { sub := some sub, exp := now + minutes * 60 } SECRET_KEY

/-- One row of the sqlite `users` table (database.py lines 14-24):
`id INTEGER PRIMARY KEY AUTOINCREMENT, username TEXT, password TEXT,
email TEXT UNIQUE, age INTEGER, location TEXT, phone TEXT, language TEXT`.
Registration always supplies username, password and email, so those are
non-optional; the four profile attributes are nullable. -/
structure User where
  id : Nat
  username : String
  password : Digest
  email : String
  age : Option Int
  location : Option String
  phone : Option String
  language : Option String
deriving DecidableEq, Repr

/-- The database: rows in rowid order plus the next AUTOINCREMENT id. -/
structure DB where
  users : List User
  nextId : Nat
deriving DecidableEq, Repr

/-- `init_db` (database.py lines 12-27): creates the empty table. -/
def init_db : DB := { users := [], nextId := 1 }

/-- `get_user_by_email_or_username` (database.py lines 32-39):
`SELECT * FROM users WHERE email = ? OR username = ?` with `fetchone()`,
i.e. the first row in rowid order matching on email OR username. -/
def get_user_by_email_or_username (db : DB) (identifier : String) : Option User :=
  db.users.find? (fun u => u.email = identifier || u.username = identifier)

/-- The row lookup inside `get_current_user` (main.py line 86):
`SELECT * FROM users WHERE email = ?` with `fetchone()`. -/
def find_by_email (db : DB) (email : String) : Option User :=
  db.users.find? (fun u => u.email = email)

/-- An `HTTPException(status_code, detail)` surfaced to the caller. -/
structure HTTPErr where
  status_code : Nat
  detail : String
deriving DecidableEq, Repr

/-- `get_current_user` (main.py lines 76-90): decode the bearer token with
`SECRET_KEY`; any `JWTError` or a falsy `sub` claim (absent or empty string)
gives 401 "Invalid token"; a verified subject matching no stored user gives
401 "User not found"; otherwise the user's row. -/
def get_current_user (db : DB) (now : Int) (token : Token) : Except HTTPErr User :=
  match jwt_decode token SECRET_KEY now with
  | Except.error _ => Except.error { status_code := 401, detail := "Invalid token" }
  | Except.ok payload =>
    match payload.sub with
    | none => Except.error { status_code := 401, detail := "Invalid token" }
    | some email =>
      if email = "" then Except.error { status_code := 401, detail := "Invalid token" }
      else
        match find_by_email db email with
        | none => Except.error { status_code := 401, detail := "User not found" }
        | some u => Except.ok u

/-- The request body of `POST /register` (main.py lines 44-51). -/
structure RegisterUser where
  username : String
  email : String
  password : String
  age : Option Int
  location : Option String
  phone : Option String
  language : Option String
deriving DecidableEq, Repr

/-- `register` (main.py lines 126-148): INSERT the new row; a sqlite
`IntegrityError` (the UNIQUE constraint on email) gives 400
"Email already registered" and, since it happens before the commit, leaves
the table unchanged.  The bcrypt salt drawn by `get_password_hash` is an
explicit parameter. -/
def register (db : DB) (salt : Nat) (r : RegisterUser) :
    Except HTTPErr String × DB :=
  if db.users.any (fun u => u.email = r.email) then
    (Except.error { status_code := 400, detail := "Email already registered" }, db)
  else
    (Except.ok "User registered successfully",
     { users := db.users ++
         [{ id := db.nextId, username := r.username,
            password := get_password_hash r.password salt, email := r.email,
            age := r.age, location := r.location, phone := r.phone,
            language := r.language }],
       nextId := db.nextId + 1 })

/-- The success body of `POST /login`: `{access_token, token_type}`. -/
structure LoginResp where
  access_token : Token
  token_type : String
deriving DecidableEq, Repr

/-- `login` (main.py lines 150-160): look the form's `username` field up by
email or username; an absent user and a failed password verification both
give 401 "Invalid username/email or password"; on success issue an access
token with subject the user's stored email. -/
def login (db : DB) (now : Int) (username password : String) :
    Except HTTPErr LoginResp :=
  match get_user_by_email_or_username db username with
  | none =>
    Except.error { status_code := 401, detail := "Invalid username/email or password" }
  | some user =>
    if ¬ verify_password password user.password then
      Except.error { status_code := 401, detail := "Invalid username/email or password" }
    else
      Except.ok { access_token := create_access_token user.email ACCESS_TOKEN_EXPIRE_MINUTES now,
                  token_type := "bearer" }

/-- The response body of `GET /profile` (main.py lines 164-171). -/
structure ProfileResp where
  username : String
  email : String
  age : Option Int
  location : Option String
  phone : Option String
  language : Option String
deriving DecidableEq, Repr

/-- `get_profile` (main.py lines 162-171): project the authenticated user's
public fields; the password hash is not included. -/
def get_profile (db : DB) (now : Int) (token : Token) : Except HTTPErr ProfileResp :=
  match get_current_user db now token with
  | Except.error e => Except.error e
  | Except.ok u =>
    Except.ok { username := u.username, email := u.email, age := u.age,
                location := u.location, phone := u.phone, language := u.language }

/-- The request body of `PUT /profile` (main.py lines 53-58): every field
optional, defaulting to `None`, so an omitted field and an explicit null are
the same value. -/
structure UpdateProfile where
  username : Option String
  age : Option Int
  location : Option String
  phone : Option String
  language : Option String
deriving DecidableEq, Repr

/-- The field loop of `update_profile` (main.py lines 176-180) builds an
empty update list exactly when every field of the payload is `None`. -/
def UpdateProfile.isEmpty (p : UpdateProfile) : Bool :=
  p.username = none && p.age = none && p.location = none &&
  p.phone = none && p.language = none

/-- The effect of the generated `UPDATE users SET ... WHERE email = ?` on
one matching row: each non-`None` payload field overwrites the column, every
other column keeps its value. -/
def applyPatch (p : UpdateProfile) (u : User) : User :=
  { u with
    username := match p.username with | some v => v | none => u.username,
    age := match p.age with | some v => some v | none => u.age,
    location := match p.location with | some v => some v | none => u.location,
    phone := match p.phone with | some v => some v | none => u.phone,
    language := match p.language with | some v => some v | none => u.language }

/-- `update_profile` (main.py lines 173-190): authenticate; collect the
non-`None` fields; if none, succeed with "Nothing to update" and no write;
otherwise UPDATE the rows whose email equals the authenticated user's email. -/
def update_profile (db : DB) (now : Int) (token : Token) (p : UpdateProfile) :
    Except HTTPErr String × DB :=
  match get_current_user db now token with
  | Except.error e => (Except.error e, db)
  | Except.ok cu =>
    if p.isEmpty then
      (Except.ok "Nothing to update", db)
    else
      (Except.ok "Profile updated successfully",
       { db with users := (db.users.map
           (fun u => if u.email = cu.email then applyPatch p u else u)) })

/-- `send_reset_email` (main.py lines 92-123): the SMTP dispatch is wrapped
in try/except, so a failure is logged and swallowed; the explicit `smtpOk`
flag models whether the external dispatch succeeds. -/
def send_reset_email (smtpOk : Bool) : Unit :=
  match (if smtpOk then Except.ok () else Except.error "SMTPException" :
      Except String Unit) with
  | Except.ok _ => ()
  | Except.error _ => ()

/-- `forgot_password` (main.py lines 192-200): look the query email up with
`get_user_by_email_or_username`; absent gives 404 "Email not found";
otherwise issue a reset token with subject the found row's stored email and
`RESET_TOKEN_EXPIRE_MINUTES` TTL, dispatch it best-effort, and report
success.  The returned token stands for the one embedded in the reset link. -/
def forgot_password (db : DB) (now : Int) (email : String) (smtpOk : Bool) :
    Except HTTPErr (String × Token) :=
  match get_user_by_email_or_username db email with
  | none => Except.error { status_code := 404, detail := "Email not found" }
  | some user =>
    let reset_token := create_access_token user.email RESET_TOKEN_EXPIRE_MINUTES now
    let _ := send_reset_email smtpOk
    Except.ok ("Password reset email sent", reset_token)

/-- `reset_password` (main.py lines 202-217): decode the token with
`SECRET_KEY` (400 "Invalid or expired token" on `JWTError`, 400
"Invalid token" on a falsy subject), then hash the new password and UPDATE
the password of the rows whose email equals the token's subject. -/
def reset_password (db : DB) (now : Int) (salt : Nat) (token : Token)
    (new_password : String) : Except HTTPErr String × DB :=
  match jwt_decode token SECRET_KEY now with
  | Except.error _ =>
    (Except.error { status_code := 400, detail := "Invalid or expired token" }, db)
  | Except.ok payload =>
    match payload.sub with
    | none => (Except.error { status_code := 400, detail := "Invalid token" }, db)
    | some email =>
      if email = "" then
        (Except.error { status_code := 400, detail := "Invalid token" }, db)
      else
        (Except.ok "Password reset successful",
         { db with users := (db.users.map
             (fun u => if u.email = email then
                 { u with password := get_password_hash new_password salt }
               else u)) })

/-- One request against the HTTP surface (spec section 6): the six
endpoints with their inputs. -/
inductive Request where
  | registerReq (r : RegisterUser)
  | loginReq (username password : String)
  | getProfileReq (token : Token)
  | updateProfileReq (token : Token) (p : UpdateProfile)
  | forgotPasswordReq (email : String) (smtpOk : Bool)
  | resetPasswordReq (token : Token) (new_password : String)
deriving DecidableEq, Repr

/-- The database after handling one request: `login`, `get_profile` and
`forgot_password` only SELECT, the other endpoints return their new state. -/
def handle (db : DB) (now : Int) (salt : Nat) : Request → DB
  | Request.registerReq r => (register db salt r).2
  | Request.loginReq _ _ => db
  | Request.getProfileReq _ => db
  | Request.updateProfileReq token p => (update_profile db now token p).2
  | Request.forgotPasswordReq _ _ => db
  | Request.resetPasswordReq token npw => (reset_password db now salt token npw).2

/-- Whether an `Except` result is a success. -/
def isOkE {ε α : Type} : Except ε α → Bool
  | Except.ok _ => true
  | Except.error _ => false

/-! ### Concrete fixtures used by witnesses and counterexamples -/

/-- A stored user for concrete instantiations. -/
def userBob : User :=
  { id := 1, username := "bob", password := Digest.bcrypt 0 "pw",
    email := "b@x.com", age := none, location := none, phone := none,
    language := none }

/-- A one-user database for concrete instantiations. -/
def dbW : DB := { users := [userBob], nextId := 2 }

/-- Decoding a token signed with the right key reduces to the expiry check. -/
theorem jwt_decode_signed (p : TokenPayload) (key : String) (now : Int) :
    jwt_decode (Token.signed p key) key now =
      if p.exp ≤ now then Except.error "ExpiredSignatureError" else Except.ok p := by
  simp only [jwt_decode]
  rw [if_neg (fun hne => hne rfl)]

/-! ### C1: token expiry boundary -/

/-- Claim C1: a token produced by `create_access_token` for subject `s` with
TTL `ttl` minutes at time `now` encodes expiry `now + ttl * 60` seconds;
decoding it at any time strictly before that expiry succeeds and returns the
payload with subject `s`; decoding at any time strictly after the expiry
fails. -/
theorem c1_token_expiry_boundary (s : String) (ttl now t : Int) :
    create_access_token s ttl now =
      Token.signed { sub := some s, exp := now + ttl * 60 } SECRET_KEY
    ∧ (t < now + ttl * 60 →
        jwt_decode (create_access_token s ttl now) SECRET_KEY t =
          Except.ok { sub := some s, exp := now + ttl * 60 })
    ∧ (now + ttl * 60 < t →
        ∃ e, jwt_decode (create_access_token s ttl now) SECRET_KEY t =
          Except.error e) := by
  refine ⟨rfl, fun h => ?_, fun h => ?_⟩
  · unfold create_access_token jwt_encode
    rw [jwt_decode_signed, if_neg (by simp only; omega)]
  · refine ⟨"ExpiredSignatureError", ?_⟩
    unfold create_access_token jwt_encode
    rw [jwt_decode_signed, if_pos (by simp only; omega)]

/-- Witness for C1 at subject "a@x.com", TTL 60 minutes, issued at time 0,
checked at times 3599 and 3601. -/
theorem c1_witness :
    jwt_decode (create_access_token "a@x.com" 60 0) SECRET_KEY 3599 =
      Except.ok { sub := some "a@x.com", exp := 0 + 60 * 60 }
    ∧ ∃ e, jwt_decode (create_access_token "a@x.com" 60 0) SECRET_KEY 3601 =
        Except.error e :=
  ⟨(c1_token_expiry_boundary "a@x.com" 60 0 3599).2.1 (by norm_num),
   (c1_token_expiry_boundary "a@x.com" 60 0 3601).2.2 (by norm_num)⟩

/-! ### C2: login does not distinguish unknown identifier from wrong password -/

/-- Claim C2: a login whose identifier matches no stored user and a login
whose identifier matches a user but whose password fails verification
produce identical responses: the same 401 status and the same detail
message. -/
theorem c2_login_indistinguishable (db : DB) (now1 now2 : Int)
    (id1 pw1 id2 pw2 : String) (u : User)
    (h1 : get_user_by_email_or_username db id1 = none)
    (h2 : get_user_by_email_or_username db id2 = some u)
    (h3 : verify_password pw2 u.password = false) :
    login db now1 id1 pw1 =
      Except.error { status_code := 401, detail := "Invalid username/email or password" }
    ∧ login db now2 id2 pw2 =
      Except.error { status_code := 401, detail := "Invalid username/email or password" }
    ∧ login db now1 id1 pw1 = login db now2 id2 pw2 := by
  have e1 : login db now1 id1 pw1 =
      Except.error { status_code := 401, detail := "Invalid username/email or password" } := by
    unfold login
    rw [h1]
  have e2 : login db now2 id2 pw2 =
      Except.error { status_code := 401, detail := "Invalid username/email or password" } := by
    unfold login
    rw [h2]
    simp [h3]
  exact ⟨e1, e2, e1.trans e2.symm⟩

/-- Witness for C2: in `dbW`, identifier "alice" matches nobody and "bob"
matches `userBob` whose password is not "wrong". -/
theorem c2_witness :
    login dbW 0 "alice" "x" =
      Except.error { status_code := 401, detail := "Invalid username/email or password" }
    ∧ login dbW 0 "bob" "wrong" =
      Except.error { status_code := 401, detail := "Invalid username/email or password" }
    ∧ login dbW 0 "alice" "x" = login dbW 0 "bob" "wrong" :=
  c2_login_indistinguishable dbW 0 0 "alice" "x" "bob" "wrong" userBob rfl rfl rfl

/-! ### C9: password hashing round-trip -/

/-- Claim C9: verifying a plaintext against its own hash succeeds; verifying
it against the hash of a different plaintext fails; verifying against a
malformed digest returns false rather than failing.  The hasher is modelled
from the spec (section 4.2), since passlib is external to the repository. -/
theorem c9_hash_verify (p q r : String) (s s' : Nat) :
    verify_password p (get_password_hash p s) = true
    ∧ (p ≠ q → verify_password p (get_password_hash q s') = false)
    ∧ verify_password p (Digest.malformed r) = false := by
  refine ⟨by simp [verify_password, get_password_hash], fun h => ?_, rfl⟩
  simp [verify_password, get_password_hash, h]

/-- Witness for C9 at plaintexts "pw1" and "pw2". -/
theorem c9_witness :
    verify_password "pw1" (get_password_hash "pw1" 5) = true
    ∧ verify_password "pw1" (get_password_hash "pw2" 7) = false
    ∧ verify_password "pw1" (Digest.malformed "zzz") = false :=
  ⟨(c9_hash_verify "pw1" "pw2" "zzz" 5 7).1,
   (c9_hash_verify "pw1" "pw2" "zzz" 5 7).2.1 (by decide),
   (c9_hash_verify "pw1" "pw2" "zzz" 5 7).2.2⟩

/-! ### C5: duplicate registration rejected, fresh registration persisted -/

/-- Claim C5: a Register call whose email equals a persisted user's email
fails with 400 "Email already registered" and leaves the database (hence
every field of the existing record) unchanged; a Register call with a fresh
email succeeds and appends the new record. -/
theorem c5_register_duplicate_fresh (db : DB) (salt : Nat) (r : RegisterUser) :
    ((∃ u ∈ db.users, u.email = r.email) →
      register db salt r =
        (Except.error { status_code := 400, detail := "Email already registered" }, db))
    ∧ ((∀ u ∈ db.users, u.email ≠ r.email) →
      register db salt r =
        (Except.ok "User registered successfully",
         { users := db.users ++
             [{ id := db.nextId, username := r.username,
                password := get_password_hash r.password salt, email := r.email,
                age := r.age, location := r.location, phone := r.phone,
                language := r.language }],
           nextId := db.nextId + 1 })) := by
  constructor
  · rintro ⟨u, hu, he⟩
    unfold register
    rw [if_pos (List.any_eq_true.mpr ⟨u, hu, by simp [he]⟩)]
  · intro h
    have hc : ¬ db.users.any (fun u => u.email = r.email) = true := by
      intro hc
      obtain ⟨u, hu, he⟩ := List.any_eq_true.mp hc
      exact h u hu (by simpa using he)
    unfold register
    rw [if_neg hc]

/-- The duplicate-registration request used by the C5 witness. -/
def rDup : RegisterUser :=
  { username := "bob2", email := "b@x.com", password := "pw2",
    age := none, location := none, phone := none, language := none }

/-- The fresh-registration request used by the C5 witness. -/
def rCarol : RegisterUser :=
  { username := "carol", email := "c@x.com", password := "pw3",
    age := some 30, location := none, phone := none, language := none }

/-- Witness for C5: registering `userBob`'s email again fails and leaves
`dbW` unchanged; registering a fresh email succeeds. -/
theorem c5_witness :
    register dbW 3 rDup =
      (Except.error { status_code := 400, detail := "Email already registered" }, dbW)
    ∧ isOkE (register dbW 3 rCarol).1 = true := by
  refine ⟨(c5_register_duplicate_fresh dbW 3 rDup).1 ⟨userBob, by simp [dbW], rfl⟩, ?_⟩
  rw [(c5_register_duplicate_fresh dbW 3 rCarol).2 (by decide)]
  rfl

/-! ### C8: authenticated requests fail with 401, never crash -/

/-- Claim C8: `get_current_user` is a total function whose every failure is a
401 response: a malformed token, a token signed with the wrong key, and a
token whose expiry is not in the future each give 401 "Invalid token", and a
token that verifies but whose subject matches no stored user gives 401
"User not found". -/
theorem c8_auth_failures_total (db : DB) (now : Int) (tok : Token) :
    (isOkE (get_current_user db now tok) = true ∨
      ∃ d, get_current_user db now tok =
        Except.error { status_code := 401, detail := d })
    ∧ (∀ raw, get_current_user db now (Token.malformed raw) =
        Except.error { status_code := 401, detail := "Invalid token" })
    ∧ (∀ p k, k ≠ SECRET_KEY → get_current_user db now (Token.signed p k) =
        Except.error { status_code := 401, detail := "Invalid token" })
    ∧ (∀ p : TokenPayload, p.exp ≤ now →
        get_current_user db now (Token.signed p SECRET_KEY) =
          Except.error { status_code := 401, detail := "Invalid token" })
    ∧ (∀ (p : TokenPayload) (e : String), p.sub = some e → e ≠ "" → now < p.exp →
        find_by_email db e = none →
        get_current_user db now (Token.signed p SECRET_KEY) =
          Except.error { status_code := 401, detail := "User not found" }) := by
  refine ⟨?_, fun raw => rfl, ?_, ?_, ?_⟩
  · unfold get_current_user
    split
    · exact Or.inr ⟨"Invalid token", rfl⟩
    · split
      · exact Or.inr ⟨"Invalid token", rfl⟩
      · split
        · exact Or.inr ⟨"Invalid token", rfl⟩
        · split
          · exact Or.inr ⟨"User not found", rfl⟩
          · exact Or.inl rfl
  · intro p k hk
    have hd : jwt_decode (Token.signed p k) SECRET_KEY now = Except.error "JWTError" := by
      simp only [jwt_decode]
      rw [if_pos hk]
    unfold get_current_user
    rw [hd]
  · intro p hp
    have hd : jwt_decode (Token.signed p SECRET_KEY) SECRET_KEY now =
        Except.error "ExpiredSignatureError" := by
      rw [jwt_decode_signed, if_pos hp]
    unfold get_current_user
    rw [hd]
  · intro p e hs hne hexp hfind
    have hd : jwt_decode (Token.signed p SECRET_KEY) SECRET_KEY now = Except.ok p := by
      rw [jwt_decode_signed, if_neg (by omega)]
    unfold get_current_user
    rw [hd]
    dsimp only
    rw [hs]
    dsimp only
    rw [if_neg hne, hfind]

/-- Witness for C8: a malformed token, a foreign-key token, an expired
token, and a verified token for an absent subject, all against `dbW`. -/
theorem c8_witness :
    get_current_user dbW 0 (Token.malformed "garbage") =
      Except.error { status_code := 401, detail := "Invalid token" }
    ∧ get_current_user dbW 0 (Token.signed { sub := some "b@x.com", exp := 100 } "otherkey") =
      Except.error { status_code := 401, detail := "Invalid token" }
    ∧ get_current_user dbW 50 (Token.signed { sub := some "b@x.com", exp := 40 } SECRET_KEY) =
      Except.error { status_code := 401, detail := "Invalid token" }
    ∧ get_current_user dbW 0 (Token.signed { sub := some "ghost@x.com", exp := 100 } SECRET_KEY) =
      Except.error { status_code := 401, detail := "User not found" } :=
  ⟨(c8_auth_failures_total dbW 0 (Token.malformed "garbage")).2.1 "garbage",
   (c8_auth_failures_total dbW 0 (Token.signed { sub := some "b@x.com", exp := 100 } "otherkey")).2.2.1
     { sub := some "b@x.com", exp := 100 } "otherkey" (by decide),
   (c8_auth_failures_total dbW 50 (Token.signed { sub := some "b@x.com", exp := 40 } SECRET_KEY)).2.2.2.1
     { sub := some "b@x.com", exp := 40 } (by decide),
   (c8_auth_failures_total dbW 0 (Token.signed { sub := some "ghost@x.com", exp := 100 } SECRET_KEY)).2.2.2.2
     { sub := some "ghost@x.com", exp := 100 } "ghost@x.com" rfl (by decide) (by decide) rfl⟩

/-! ### C4: forgot-password lookup (corrected) -/

/-- A stored user whose username is the email address of nobody: the lookup
by "email" also matches on the username column. -/
def userShadow : User :=
  { id := 1, username := "x@y.com", password := Digest.bcrypt 0 "pw",
    email := "other@y.com", age := none, location := none, phone := none,
    language := none }

/-- A database exhibiting the username-shadowing lookup of C4. -/
def dbShadow : DB := { users := [userShadow], nextId := 2 }

/-- Counterexample to C4 as stated: in `dbShadow` no stored record has email
"x@y.com", yet `forgot_password "x@y.com"` does not return 404 — the lookup
matched `userShadow`'s username and a reset token for its stored email was
issued. -/
theorem c4_counterexample :
    dbShadow.users.all (fun u => !(u.email = "x@y.com")) = true
    ∧ forgot_password dbShadow 0 "x@y.com" true =
        Except.ok ("Password reset email sent",
          Token.signed { sub := some "other@y.com", exp := 0 + 15 * 60 } SECRET_KEY) :=
  ⟨rfl, rfl⟩

/-- Claim C4 amended: `forgot_password` returns 404 "Email not found"
exactly when no stored record has that email or that username (the lookup
matches either column); when a record matches, it issues a reset token with
`RESET_TOKEN_EXPIRE_MINUTES` TTL whose subject is the matched record's
stored email and reports success whether or not the notification dispatch
succeeds. -/
theorem c4_forgot_password_amended (db : DB) (now : Int) (email : String) (b b' : Bool) :
    (forgot_password db now email b =
        Except.error { status_code := 404, detail := "Email not found" } ↔
      ∀ u ∈ db.users, ¬(u.email = email ∨ u.username = email))
    ∧ (∀ u, get_user_by_email_or_username db email = some u →
        forgot_password db now email b =
          Except.ok ("Password reset email sent",
            create_access_token u.email RESET_TOKEN_EXPIRE_MINUTES now))
    ∧ forgot_password db now email b = forgot_password db now email b' := by
  have hiff : get_user_by_email_or_username db email = none ↔
      ∀ u ∈ db.users, ¬(u.email = email ∨ u.username = email) := by
    unfold get_user_by_email_or_username
    rw [List.find?_eq_none]
    constructor
    · intro h u hu
      simpa using h u hu
    · intro h u hu
      simpa using h u hu
  refine ⟨?_, ?_, ?_⟩
  · constructor
    · intro h
      rw [← hiff]
      cases hl : get_user_by_email_or_username db email with
      | none => rfl
      | some u =>
        unfold forgot_password at h
        rw [hl] at h
        exact absurd h (by simp)
    · intro h
      unfold forgot_password
      rw [show get_user_by_email_or_username db email = none from hiff.mpr h]
  · intro u hu
    unfold forgot_password
    rw [hu]
  · cases hl : get_user_by_email_or_username db email with
    | none =>
      unfold forgot_password
      rw [hl]
    | some u =>
      unfold forgot_password
      rw [hl]

/-- Witness for C4: a matching record (by stored email) yields a reset token
whose subject is that stored email. -/
theorem c4_witness :
    forgot_password dbShadow 5 "other@y.com" false =
      Except.ok ("Password reset email sent",
        create_access_token userShadow.email RESET_TOKEN_EXPIRE_MINUTES 5) :=
  (c4_forgot_password_amended dbShadow 5 "other@y.com" false true).2.1 userShadow rfl

/-! ### C6: update-profile frame condition -/

/-- An all-`none` payload patches nothing. -/
theorem applyPatch_empty (p : UpdateProfile) (hp : p.isEmpty = true) (u : User) :
    applyPatch p u = u := by
  simp only [UpdateProfile.isEmpty, Bool.and_eq_true, decide_eq_true_eq] at hp
  obtain ⟨⟨⟨⟨h1, h2⟩, h3⟩, h4⟩, h5⟩ := hp
  simp [applyPatch, h1, h2, h3, h4, h5]

/-- Claim C6: an authenticated profile update succeeds, an empty field set
leaves the database unchanged while still succeeding, the updated table
patches exactly the rows with the authenticated user's email, and the patch
changes exactly the supplied non-null fields — id, email, the password hash
and every field supplied as null keep their prior values. -/
theorem c6_update_profile_frame (db : DB) (now : Int) (tok : Token)
    (p : UpdateProfile) (cu : User)
    (hcu : get_current_user db now tok = Except.ok cu) :
    isOkE (update_profile db now tok p).1 = true
    ∧ (p.isEmpty = true →
        update_profile db now tok p = (Except.ok "Nothing to update", db))
    ∧ (update_profile db now tok p).2.users =
        db.users.map (fun u => if u.email = cu.email then applyPatch p u else u)
    ∧ (∀ u : User,
        (applyPatch p u).id = u.id
        ∧ (applyPatch p u).email = u.email
        ∧ (applyPatch p u).password = u.password
        ∧ (p.username = none → (applyPatch p u).username = u.username)
        ∧ (p.age = none → (applyPatch p u).age = u.age)
        ∧ (p.location = none → (applyPatch p u).location = u.location)
        ∧ (p.phone = none → (applyPatch p u).phone = u.phone)
        ∧ (p.language = none → (applyPatch p u).language = u.language)
        ∧ (∀ v, p.username = some v → (applyPatch p u).username = v)
        ∧ (∀ v, p.age = some v → (applyPatch p u).age = some v)
        ∧ (∀ v, p.location = some v → (applyPatch p u).location = some v)
        ∧ (∀ v, p.phone = some v → (applyPatch p u).phone = some v)
        ∧ (∀ v, p.language = some v → (applyPatch p u).language = some v)) := by
  have hup : update_profile db now tok p =
      (if p.isEmpty then (Except.ok "Nothing to update", db)
       else (Except.ok "Profile updated successfully",
         { db with users := (db.users.map
             (fun u => if u.email = cu.email then applyPatch p u else u)) })) := by
    unfold update_profile
    rw [hcu]
  refine ⟨?_, ?_, ?_, ?_⟩
  · rw [hup]
    by_cases hp : p.isEmpty = true <;> simp [hp, isOkE]
  · intro hp
    rw [hup, if_pos hp]
  · rw [hup]
    by_cases hp : p.isEmpty = true
    · rw [if_pos hp]
      dsimp only
      symm
      calc db.users.map (fun u => if u.email = cu.email then applyPatch p u else u)
          = db.users.map id := List.map_congr_left (fun u _ => by
              by_cases he : u.email = cu.email
              · rw [if_pos he, applyPatch_empty p hp u]
                rfl
              · rw [if_neg he]
                rfl)
        _ = db.users := List.map_id _
    · rw [if_neg hp]
  · intro u
    refine ⟨rfl, rfl, rfl, fun h => by simp [applyPatch, h], fun h => by simp [applyPatch, h],
      fun h => by simp [applyPatch, h], fun h => by simp [applyPatch, h],
      fun h => by simp [applyPatch, h], fun v h => by simp [applyPatch, h],
      fun v h => by simp [applyPatch, h], fun v h => by simp [applyPatch, h],
      fun v h => by simp [applyPatch, h], fun v h => by simp [applyPatch, h]⟩

/-- A valid access token for `userBob`, used by witnesses. -/
def tokW : Token := Token.signed { sub := some "b@x.com", exp := 100 } SECRET_KEY

/-- The `{age: 31}` update payload used by the C6 witness. -/
def pAgeW : UpdateProfile :=
  { username := none, age := some 31, location := none, phone := none, language := none }

/-- Witness for C6: updating only `age` for `userBob` in `dbW` succeeds and
patches exactly the rows with bob's email. -/
theorem c6_witness :
    isOkE (update_profile dbW 0 tokW pAgeW).1 = true
    ∧ (update_profile dbW 0 tokW pAgeW).2.users =
        dbW.users.map (fun u => if u.email = userBob.email then applyPatch pAgeW u else u) :=
  ⟨(c6_update_profile_frame dbW 0 tokW pAgeW userBob rfl).1,
   (c6_update_profile_frame dbW 0 tokW pAgeW userBob rfl).2.2.1⟩

/-! ### C7: access and reset tokens are mutually interchangeable -/

/-- Claim C7: the reset token issued by `forgot_password` is exactly an
access token with the shorter TTL — both are signed payloads with the same
subject and key differing only in expiry — and while both are unexpired the
verifier (`get_current_user`) and `reset_password` treat the two
interchangeably. -/
theorem c7_token_flavors (db : DB) (npw email : String) (t0 t1 : Int)
    (salt : Nat) (b : Bool) (u : User)
    (hu : get_user_by_email_or_username db email = some u)
    (h1 : t1 < t0 + RESET_TOKEN_EXPIRE_MINUTES * 60) :
    forgot_password db t0 email b =
      Except.ok ("Password reset email sent",
        create_access_token u.email RESET_TOKEN_EXPIRE_MINUTES t0)
    ∧ create_access_token u.email RESET_TOKEN_EXPIRE_MINUTES t0 =
        Token.signed { sub := some u.email, exp := t0 + RESET_TOKEN_EXPIRE_MINUTES * 60 }
          SECRET_KEY
    ∧ create_access_token u.email ACCESS_TOKEN_EXPIRE_MINUTES t0 =
        Token.signed { sub := some u.email, exp := t0 + ACCESS_TOKEN_EXPIRE_MINUTES * 60 }
          SECRET_KEY
    ∧ get_current_user db t1 (create_access_token u.email RESET_TOKEN_EXPIRE_MINUTES t0) =
        get_current_user db t1 (create_access_token u.email ACCESS_TOKEN_EXPIRE_MINUTES t0)
    ∧ reset_password db t1 salt (create_access_token u.email RESET_TOKEN_EXPIRE_MINUTES t0) npw =
        reset_password db t1 salt (create_access_token u.email ACCESS_TOKEN_EXPIRE_MINUTES t0) npw := by
  have hr : jwt_decode (create_access_token u.email RESET_TOKEN_EXPIRE_MINUTES t0) SECRET_KEY t1 =
      Except.ok { sub := some u.email, exp := t0 + RESET_TOKEN_EXPIRE_MINUTES * 60 } := by
    unfold create_access_token jwt_encode
    rw [jwt_decode_signed, if_neg]
    show ¬(t0 + RESET_TOKEN_EXPIRE_MINUTES * 60 ≤ t1)
    omega
  have ha : jwt_decode (create_access_token u.email ACCESS_TOKEN_EXPIRE_MINUTES t0) SECRET_KEY t1 =
      Except.ok { sub := some u.email, exp := t0 + ACCESS_TOKEN_EXPIRE_MINUTES * 60 } := by
    unfold create_access_token jwt_encode
    rw [jwt_decode_signed, if_neg]
    show ¬(t0 + ACCESS_TOKEN_EXPIRE_MINUTES * 60 ≤ t1)
    simp only [RESET_TOKEN_EXPIRE_MINUTES] at h1
    simp only [ACCESS_TOKEN_EXPIRE_MINUTES]
    omega
  refine ⟨?_, rfl, rfl, ?_, ?_⟩
  · unfold forgot_password
    rw [hu]
  · unfold get_current_user
    rw [hr, ha]
  · unfold reset_password
    rw [hr, ha]

/-- Witness for C7 against `dbW` at issue time 0 and use time 100. -/
theorem c7_witness :
    get_current_user dbW 100 (create_access_token userBob.email RESET_TOKEN_EXPIRE_MINUTES 0) =
      get_current_user dbW 100 (create_access_token userBob.email ACCESS_TOKEN_EXPIRE_MINUTES 0)
    ∧ reset_password dbW 100 2 (create_access_token userBob.email RESET_TOKEN_EXPIRE_MINUTES 0) "np" =
      reset_password dbW 100 2 (create_access_token userBob.email ACCESS_TOKEN_EXPIRE_MINUTES 0) "np" :=
  ⟨(c7_token_flavors dbW "np" "b@x.com" 0 100 2 true userBob rfl (by decide)).2.2.2.1,
   (c7_token_flavors dbW "np" "b@x.com" 0 100 2 true userBob rfl (by decide)).2.2.2.2⟩

/-! ### C3: reset round-trip (corrected) -/

/-- The effect of `UPDATE users SET password = ? WHERE email = ?` on one
row, as performed by `reset_password`. -/
def replacePasswordRow (email npw : String) (s1 : Nat) (v : User) : User :=
  if v.email = email then { v with password := get_password_hash npw s1 } else v

/-- A row transformation preserving email and username commutes with the
email-or-username lookup. -/
theorem lookup_map_preserving (db : DB) (g : User → User)
    (hg : ∀ v, (g v).email = v.email ∧ (g v).username = v.username)
    (idf : String) :
    get_user_by_email_or_username { db with users := (db.users.map g) } idf =
      Option.map g (get_user_by_email_or_username db idf) := by
  unfold get_user_by_email_or_username
  dsimp only
  rw [List.find?_map]
  have hpred : ((fun v : User => v.email = idf || v.username = idf) ∘ g) =
      (fun v : User => v.email = idf || v.username = idf) := by
    funext v
    simp [Function.comp, (hg v).1, (hg v).2]
  rw [hpred]

/-- `replacePasswordRow` only touches the password column. -/
theorem replacePasswordRow_preserves (email npw : String) (s1 : Nat) (v : User) :
    (replacePasswordRow email npw s1 v).email = v.email
    ∧ (replacePasswordRow email npw s1 v).username = v.username := by
  unfold replacePasswordRow
  by_cases hv : v.email = email
  · rw [if_pos hv]
    exact ⟨rfl, rfl⟩
  · rw [if_neg hv]
    exact ⟨rfl, rfl⟩

/-- The user `userAlice` whose stored hash is of the old password "pw". -/
def userAlice : User :=
  { id := 1, username := "alice", password := Digest.bcrypt 0 "pw",
    email := "a@x.com", age := none, location := none, phone := none,
    language := none }

/-- A one-user database holding `userAlice`. -/
def dbAlice : DB := { users := [userAlice], nextId := 2 }

/-- The reset token `forgot_password` issues for `userAlice` at time 0. -/
def tokAlice : Token :=
  Token.signed { sub := some "a@x.com", exp := 0 + 15 * 60 } SECRET_KEY

/-- `dbAlice` after the reset rehashed the same password "pw" with salt 1. -/
def dbAlice1 : DB :=
  { users := [{ userAlice with password := Digest.bcrypt 1 "pw" }], nextId := 2 }

/-- Counterexample to C3 as stated: `userAlice` is stored with old password
"pw"; the reset flow is run with the new password also "pw" and a still-valid
token; the subsequent login with the old password "pw" then succeeds instead
of failing with InvalidCredentials. -/
theorem c3_counterexample :
    userAlice.password = get_password_hash "pw" 0
    ∧ forgot_password dbAlice 0 "a@x.com" true =
        Except.ok ("Password reset email sent", tokAlice)
    ∧ reset_password dbAlice 10 1 tokAlice "pw" =
        (Except.ok "Password reset successful", dbAlice1)
    ∧ isOkE (login dbAlice1 20 "a@x.com" "pw") = true :=
  ⟨rfl, rfl, rfl, rfl⟩

/-- Claim C3 amended: the reset round-trip holds provided the new password
differs from the old one (and the stored user is the row its email looks up,
with a non-empty email): after obtaining a reset token and resetting while
it is valid, login with the new password succeeds and login with the old
password fails with the generic 401. -/
theorem c3_reset_roundtrip (db : DB) (u : User) (oldpw newpw : String)
    (s0 s1 : Nat) (t0 t1 t2 t3 : Int) (b : Bool)
    (hu : get_user_by_email_or_username db u.email = some u)
    (_hold : u.password = get_password_hash oldpw s0)
    (hne : u.email ≠ "")
    (hdiff : oldpw ≠ newpw)
    (hvalid : t1 < t0 + RESET_TOKEN_EXPIRE_MINUTES * 60) :
    forgot_password db t0 u.email b =
      Except.ok ("Password reset email sent",
        create_access_token u.email RESET_TOKEN_EXPIRE_MINUTES t0)
    ∧ reset_password db t1 s1 (create_access_token u.email RESET_TOKEN_EXPIRE_MINUTES t0) newpw =
        (Except.ok "Password reset successful",
         { db with users := (db.users.map (replacePasswordRow u.email newpw s1)) })
    ∧ isOkE (login { db with users := (db.users.map (replacePasswordRow u.email newpw s1)) }
        t2 u.email newpw) = true
    ∧ login { db with users := (db.users.map (replacePasswordRow u.email newpw s1)) }
        t3 u.email oldpw =
        Except.error { status_code := 401, detail := "Invalid username/email or password" } := by
  have hlook : get_user_by_email_or_username
      { db with users := (db.users.map (replacePasswordRow u.email newpw s1)) } u.email =
      some { u with password := get_password_hash newpw s1 } := by
    rw [lookup_map_preserving db _ (replacePasswordRow_preserves u.email newpw s1) u.email, hu]
    dsimp only [Option.map]
    unfold replacePasswordRow
    rw [if_pos rfl]
  refine ⟨?_, ?_, ?_, ?_⟩
  · unfold forgot_password
    rw [hu]
  · have hd : jwt_decode (create_access_token u.email RESET_TOKEN_EXPIRE_MINUTES t0)
        SECRET_KEY t1 =
        Except.ok { sub := some u.email, exp := t0 + RESET_TOKEN_EXPIRE_MINUTES * 60 } := by
      unfold create_access_token jwt_encode
      rw [jwt_decode_signed, if_neg]
      show ¬(t0 + RESET_TOKEN_EXPIRE_MINUTES * 60 ≤ t1)
      omega
    unfold reset_password
    rw [hd]
    dsimp only
    rw [if_neg hne]
    unfold replacePasswordRow
    rfl
  · unfold login
    rw [hlook]
    simp [verify_password, get_password_hash, isOkE]
  · unfold login
    rw [hlook]
    have hv : verify_password oldpw (get_password_hash newpw s1) = false := by
      simp [verify_password, get_password_hash, hdiff]
    simp [hv]

/-- Witness for the amended C3: `userAlice` with old password "pw", new
password "npw", reset at time 10 with the token issued at time 0. -/
theorem c3_witness :
    isOkE (login { dbAlice with
        users := (dbAlice.users.map (replacePasswordRow userAlice.email "npw" 1)) }
      20 userAlice.email "npw") = true
    ∧ login { dbAlice with
        users := (dbAlice.users.map (replacePasswordRow userAlice.email "npw" 1)) }
      30 userAlice.email "pw" =
      Except.error { status_code := 401, detail := "Invalid username/email or password" } :=
  ⟨(c3_reset_roundtrip dbAlice userAlice "pw" "npw" 0 1 0 10 20 30 true
      rfl rfl (by decide) (by decide) (by decide)).2.2.1,
   (c3_reset_roundtrip dbAlice userAlice "pw" "npw" 0 1 0 10 20 30 true
      rfl rfl (by decide) (by decide) (by decide)).2.2.2⟩

/-! ### C10: profile attributes are never reset to null -/

/-- Patching cannot null out an already-set `age`. -/
theorem applyPatch_age_ne_none (p : UpdateProfile) (u : User) (h : u.age ≠ none) :
    (applyPatch p u).age ≠ none := by
  cases hpa : p.age
  · simpa [applyPatch, hpa] using h
  · simp [applyPatch, hpa]

/-- Patching cannot null out an already-set `location`. -/
theorem applyPatch_location_ne_none (p : UpdateProfile) (u : User) (h : u.location ≠ none) :
    (applyPatch p u).location ≠ none := by
  cases hpa : p.location
  · simpa [applyPatch, hpa] using h
  · simp [applyPatch, hpa]

/-- Patching cannot null out an already-set `phone`. -/
theorem applyPatch_phone_ne_none (p : UpdateProfile) (u : User) (h : u.phone ≠ none) :
    (applyPatch p u).phone ≠ none := by
  cases hpa : p.phone
  · simpa [applyPatch, hpa] using h
  · simp [applyPatch, hpa]

/-- Patching cannot null out an already-set `language`. -/
theorem applyPatch_language_ne_none (p : UpdateProfile) (u : User) (h : u.language ≠ none) :
    (applyPatch p u).language ≠ none := by
  cases hpa : p.language
  · simpa [applyPatch, hpa] using h
  · simp [applyPatch, hpa]

/-- Claim C10: after any one of the six endpoints handles a request, every
previously stored user still has a row with its id and email whose profile
attributes are non-null wherever they were non-null before; and for an
update request, every field that is null in the body keeps its prior stored
value on that row. -/
theorem c10_profile_never_nulled (db : DB) (now : Int) (salt : Nat)
    (req : Request) (u : User) (hu : u ∈ db.users) :
    ∃ u' : User, u' ∈ (handle db now salt req).users
      ∧ u'.id = u.id ∧ u'.email = u.email
      ∧ (u.age ≠ none → u'.age ≠ none)
      ∧ (u.location ≠ none → u'.location ≠ none)
      ∧ (u.phone ≠ none → u'.phone ≠ none)
      ∧ (u.language ≠ none → u'.language ≠ none)
      ∧ (∀ tok p, req = Request.updateProfileReq tok p →
          (p.username = none → u'.username = u.username)
          ∧ (p.age = none → u'.age = u.age)
          ∧ (p.location = none → u'.location = u.location)
          ∧ (p.phone = none → u'.phone = u.phone)
          ∧ (p.language = none → u'.language = u.language)) := by
  cases req with
  | registerReq r =>
    refine ⟨u, ?_, rfl, rfl, fun h => h, fun h => h, fun h => h, fun h => h,
      fun tok p hreq => Request.noConfusion hreq⟩
    show u ∈ (register db salt r).2.users
    unfold register
    by_cases hc : db.users.any (fun v => v.email = r.email) = true
    · rw [if_pos hc]
      exact hu
    · rw [if_neg hc]
      exact List.mem_append_left _ hu
  | loginReq idf pw =>
    exact ⟨u, hu, rfl, rfl, fun h => h, fun h => h, fun h => h, fun h => h,
      fun tok p hreq => Request.noConfusion hreq⟩
  | getProfileReq tok =>
    exact ⟨u, hu, rfl, rfl, fun h => h, fun h => h, fun h => h, fun h => h,
      fun tok' p hreq => Request.noConfusion hreq⟩
  | forgotPasswordReq email smtpOk =>
    exact ⟨u, hu, rfl, rfl, fun h => h, fun h => h, fun h => h, fun h => h,
      fun tok p hreq => Request.noConfusion hreq⟩
  | updateProfileReq tok p =>
    simp only [handle]
    unfold update_profile
    cases hcu : get_current_user db now tok with
    | error e =>
      dsimp only
      exact ⟨u, hu, rfl, rfl, fun h => h, fun h => h, fun h => h, fun h => h,
        fun tok' p' hreq => by
          injection hreq with htok hp
          subst hp
          exact ⟨fun _ => rfl, fun _ => rfl, fun _ => rfl, fun _ => rfl, fun _ => rfl⟩⟩
    | ok cu =>
      dsimp only
      by_cases hemp : p.isEmpty = true
      · rw [if_pos hemp]
        exact ⟨u, hu, rfl, rfl, fun h => h, fun h => h, fun h => h, fun h => h,
          fun tok' p' hreq => by
            injection hreq with htok hp
            subst hp
            exact ⟨fun _ => rfl, fun _ => rfl, fun _ => rfl, fun _ => rfl, fun _ => rfl⟩⟩
      · rw [if_neg hemp]
        refine ⟨if u.email = cu.email then applyPatch p u else u,
          List.mem_map_of_mem _ hu, ?_, ?_, ?_, ?_, ?_, ?_, ?_⟩
        · by_cases he : u.email = cu.email
          · rw [if_pos he]
            rfl
          · rw [if_neg he]
        · by_cases he : u.email = cu.email
          · rw [if_pos he]
            rfl
          · rw [if_neg he]
        · intro h
          by_cases he : u.email = cu.email
          · rw [if_pos he]
            exact applyPatch_age_ne_none p u h
          · rw [if_neg he]
            exact h
        · intro h
          by_cases he : u.email = cu.email
          · rw [if_pos he]
            exact applyPatch_location_ne_none p u h
          · rw [if_neg he]
            exact h
        · intro h
          by_cases he : u.email = cu.email
          · rw [if_pos he]
            exact applyPatch_phone_ne_none p u h
          · rw [if_neg he]
            exact h
        · intro h
          by_cases he : u.email = cu.email
          · rw [if_pos he]
            exact applyPatch_language_ne_none p u h
          · rw [if_neg he]
            exact h
        · intro tok' p' hreq
          injection hreq with htok hp
          subst hp
          by_cases he : u.email = cu.email
          · rw [if_pos he]
            exact ⟨fun h => by simp [applyPatch, h], fun h => by simp [applyPatch, h],
              fun h => by simp [applyPatch, h], fun h => by simp [applyPatch, h],
              fun h => by simp [applyPatch, h]⟩
          · rw [if_neg he]
            exact ⟨fun _ => rfl, fun _ => rfl, fun _ => rfl, fun _ => rfl, fun _ => rfl⟩
  | resetPasswordReq tok npw =>
    simp only [handle]
    unfold reset_password
    cases hd : jwt_decode tok SECRET_KEY now with
    | error e =>
      dsimp only
      exact ⟨u, hu, rfl, rfl, fun h => h, fun h => h, fun h => h, fun h => h,
        fun tok' p' hreq => Request.noConfusion hreq⟩
    | ok payload =>
      dsimp only
      cases hs : payload.sub with
      | none =>
        dsimp only
        exact ⟨u, hu, rfl, rfl, fun h => h, fun h => h, fun h => h, fun h => h,
          fun tok' p' hreq => Request.noConfusion hreq⟩
      | some e =>
        dsimp only
        by_cases he : e = ""
        · rw [if_pos he]
          exact ⟨u, hu, rfl, rfl, fun h => h, fun h => h, fun h => h, fun h => h,
            fun tok' p' hreq => Request.noConfusion hreq⟩
        · rw [if_neg he]
          refine ⟨if u.email = e then { u with password := get_password_hash npw salt } else u,
            List.mem_map_of_mem _ hu, ?_, ?_, fun h => ?_, fun h => ?_, fun h => ?_,
            fun h => ?_, fun tok' p' hreq => Request.noConfusion hreq⟩ <;>
          · by_cases hue : u.email = e
            · rw [if_pos hue]
              try exact h
            · rw [if_neg hue]
              try exact h

/-- Witness for C10: handling an age-only update for `userBob` in `dbW`. -/
theorem c10_witness :
    ∃ u' : User, u' ∈ (handle dbW 0 9 (Request.updateProfileReq tokW pAgeW)).users
      ∧ u'.id = userBob.id ∧ u'.email = userBob.email
      ∧ (userBob.age ≠ none → u'.age ≠ none)
      ∧ (userBob.location ≠ none → u'.location ≠ none)
      ∧ (userBob.phone ≠ none → u'.phone ≠ none)
      ∧ (userBob.language ≠ none → u'.language ≠ none)
      ∧ (∀ tok p, Request.updateProfileReq tokW pAgeW = Request.updateProfileReq tok p →
          (p.username = none → u'.username = userBob.username)
          ∧ (p.age = none → u'.age = userBob.age)
          ∧ (p.location = none → u'.location = userBob.location)
          ∧ (p.phone = none → u'.phone = userBob.phone)
          ∧ (p.language = none → u'.language = userBob.language)) :=
  c10_profile_never_nulled dbW 0 9 (Request.updateProfileReq tokW pAgeW) userBob
    (by simp [dbW])

end Chatbot
